import Mathlib

/-!
Verification development for a YouTube watch-logger extension
(`background.js`, `popup.js`).  The stateful Chrome-storage code is
embedded as explicit state passing: persistent tables become functions
`String → Option _`, network calls become oracle inputs, and times are
integer milliseconds.
-/

/-! ## Duration parsing (`parseISODurationToSeconds`, background.js 11-16)

The JS regex `PT(?:(\d+)H)?(?:(\d+)M)?(?:(\d+)S)?` has all three groups
optional, so it matches at the first occurrence of the literal `PT` in
the input (unanchored scan) and never fails once `PT` occurs. -/

/-- Substring test, as in JS `String.prototype.includes`. -/
def hasSubstr (needle : List Char) : List Char → Bool
  | [] => needle.isPrefixOf []
  | c :: rest => needle.isPrefixOf (c :: rest) || hasSubstr needle rest

/-- Scan for the first occurrence of the literal `PT`; return the suffix
after it (the regex match position), or `none` when `PT` does not occur. -/
def afterPT : List Char → Option (List Char)
  | [] => none
  | c :: rest =>
    if ['P', 'T'].isPrefixOf (c :: rest) then some rest.tail else afterPT rest

/-- Numeric value of a list of decimal digit characters (JS `parseInt`). -/
def digitsVal (ds : List Char) : Nat :=
  ds.foldl (fun a c => a * 10 + (c.toNat - 48)) 0

/-- One optional regex component `(?:(\d+)X)?`: consume digits followed by
the marker character, or consume nothing. -/
def component (mark : Char) (s : List Char) : Option Nat × List Char :=
  let ds := s.takeWhile (·.isDigit)
  let rest := s.dropWhile (·.isDigit)
  if ds ≠ [] ∧ rest.head? = some mark then (some (digitsVal ds), rest.tail)
  else (none, s)

/-- `parseISODurationToSeconds` (background.js 11-16): `null` when the regex
fails (no `PT` in the input); otherwise `(h||0)*3600 + (m||0)*60 + (s||0)`. -/
def parseISODurationToSeconds (iso : String) : Option Nat :=
  match afterPT iso.data with
  | none => none
  | some s =>
    let hm := component 'H' s
    let mm := component 'M' hm.2
    let sm := component 'S' mm.2
    some ((hm.1.getD 0) * 3600 + (mm.1.getD 0) * 60 + sm.1.getD 0)

/-! ## Shorts inference (`inferIsShorts`, background.js 18-22) -/

/-- `inferIsShorts` (background.js 18-22).  The JS guard
`url && url.includes("/shorts/")` coincides with the plain substring test,
since the empty string contains no non-empty needle; `durationSeconds` is
either a number or `null` (here `Option Nat`). -/
def inferIsShorts (url : String) (durationSeconds : Option Nat) : Bool :=
  if hasSubstr "/shorts/".data url.data then true
  else
    match durationSeconds with
    | some d => decide (d ≤ 60)
    | none => false

/-! ## Dedup guard (`recentlyLogged`, `markLogged`, background.js 128-148)

The `lastLogged` object in `chrome.storage.local` is embedded as a total
function `String → Option Int` from keys to last-logged timestamps in
integer milliseconds (the ISO strings of the source round-trip through
millisecond epoch values).  The JS comparison
`(Date.now() - t) / 60000 < ttlMinutes` uses exact values at these
magnitudes, so it is embedded as `now - t < ttlMinutes * 60000`. -/

/-- The dedup key `` `${profile}:${videoId}` ``. -/
def dedupKey (profile videoId : String) : String :=
  profile ++ ":" ++ videoId

/-- `recentlyLogged` (background.js 128-138): true iff a record exists for
the key and its age is strictly below the TTL (default 120 minutes). -/
def recentlyLogged (lastLogged : String → Option Int) (profile videoId : String)
    (ttlMinutes : Int) (now : Int) : Bool :=
  match lastLogged (dedupKey profile videoId) with
  | none => false
  | some last => decide (now - last < ttlMinutes * 60000)

/-- `markLogged` (background.js 140-148): upsert the current time under the
dedup key, leaving the rest of the table as it was. -/
def markLogged (lastLogged : String → Option Int) (profile videoId : String)
    (now : Int) : String → Option Int :=
  fun k => if k = dedupKey profile videoId then some now else lastLogged k

/-! ## Log store (`setLogEntry`, background.js 150-160) -/

/-- `setLogEntry` (background.js 150-160): push the entry, then
`splice(0, length - maxEntries)` the oldest surplus when over capacity. -/
def setLogEntry {α : Type} (watchLog : List α) (entry : α)
    (maxEntries : Nat := 5000) : List α :=
  let list := watchLog ++ [entry]
  if list.length > maxEntries then list.drop (list.length - maxEntries) else list

/-! ## Category name cache (`getCategoryName`, background.js 33-47)

The in-memory `Map` is a function `String → Option (Option String)`:
`some v` means the key is present with cached name `v` (`v = none` is a
cached "not found").  The network is an oracle `CatResponse`; the result
records how many network calls the lookup made. -/

/-- Outcome of the single `videoCategories` request: a non-ok HTTP response,
or an ok response whose extracted `items[0].snippet.title || null`. -/
inductive CatResponse
  | notOk
  | ok (name : Option String)
deriving DecidableEq

/-- Result of one `getCategoryName` call: its return value, the cache after
the call, and the number of network requests issued (0 or 1). -/
structure CatResult where
  name : Option String
  cache : String → Option (Option String)
  calls : Nat

/-- JS truthiness of a nullable string. -/
def truthyS : Option String → Bool
  | none => false
  | some s => decide (s ≠ "")

/-- `getCategoryName` (background.js 33-47): falsy `categoryId` returns null
with no request; a cache hit returns the cached value with no request;
otherwise one request is made, and the extracted name is cached only when
the response was ok — `if (!res.ok) return null` exits before the cache
write. -/
def getCategoryName (cache : String → Option (Option String))
    (categoryId : Option String) (regionCode : String)
    (response : CatResponse) : CatResult :=
  if ¬ truthyS categoryId then ⟨none, cache, 0⟩
  else
    let cacheKey := regionCode ++ ":" ++ (categoryId.getD "")
    match cache cacheKey with
    | some v => ⟨v, cache, 0⟩
    | none =>
      match response with
      | .notOk => ⟨none, cache, 1⟩
      | .ok name => ⟨name, fun k => if k = cacheKey then some name else cache k, 1⟩

/-! ## Retrying metadata fetch (`fetchVideoMetadataRich`, background.js 49-101)

The loop body is embedded with the network as an oracle from the attempt
index (0-based) to that attempt's outcome: a thrown error (non-ok response
or empty item set) or a parsed metadata record.  The output records the
result, how many request attempts were made, and the list of `sleep`
delays taken between consecutive attempts. -/

/-- The fields of the parsed metadata record that the rest of the pipeline
reads (identifiers, text fields, channel, category, parsed duration). -/
structure Meta where
  videoId : String
  title : Option String
  description : Option String
  channelId : Option String
  channelTitle : Option String
  categoryId : Option String
  durationSeconds : Option Nat
deriving DecidableEq

/-- Outcome of `fetchVideoMetadataRich`: final result, number of request
attempts issued, and the backoff delays (ms) slept between attempts. -/
structure FetchOut where
  result : Except String Meta
  attempts : Nat
  sleeps : List Nat

/-- The `while (true)` loop of background.js 57-100: `attempt` is the JS
counter (number of failures so far, also the 0-based index of the current
attempt), `remaining` is `maxRetries - attempt`.  On failure with retries
remaining it sleeps `300 * (attempt + 1)` ms and retries; with none left it
rethrows the last error. -/
def fetchRichAux (primary : Nat → Except String Meta) :
    Nat → Nat → FetchOut
  | attempt, 0 =>
    match primary attempt with
    | .ok m => ⟨.ok m, attempt + 1, []⟩
    | .error e => ⟨.error e, attempt + 1, []⟩
  | attempt, r + 1 =>
    match primary attempt with
    | .ok m => ⟨.ok m, attempt + 1, []⟩
    | .error _ =>
      let rest := fetchRichAux primary (attempt + 1) r
      ⟨rest.result, rest.attempts, 300 * (attempt + 1) :: rest.sleeps⟩

/-- `fetchVideoMetadataRich` (background.js 49-101) with `maxRetries`
additional attempts after the first (default 3). -/
def fetchVideoMetadataRich (primary : Nat → Except String Meta)
    (maxRetries : Nat := 3) : FetchOut :=
  fetchRichAux primary 0 maxRetries

/-! ## Channel enrichment (`fetchChannelBasics`, background.js 103-125)

A single-attempt lookup that returns `null` on any failure, missing id or
missing result; its network interaction is embedded as an oracle input
`Option ChannelExtra` consumed by the orchestrator. -/

/-- The channel record assembled by `fetchChannelBasics`. -/
structure ChannelExtra where
  channelId : String
  customUrl : Option String
  channelCountry : Option String
  channelDescription : Option String
  channelCreatedAt : Option String
  banner : Option String
  subscriberCount : Option Nat
  videoCount : Option Nat
deriving DecidableEq

/-! ## Orchestrator (`logYouTubeWatch`, background.js 163-253) -/

/-- The log entry assembled at background.js 197-244 (the fields the claims
about the pipeline observe; `watchedAt` is epoch milliseconds). -/
structure Entry where
  videoId : String
  url : String
  profile : String
  title : Option String
  description : Option String
  channelId : Option String
  channelTitle : Option String
  durationSeconds : Option Nat
  isShorts : Bool
  categoryId : Option String
  categoryName : Option String
  watchedAt : Int
  channelExtra : Option ChannelExtra
deriving DecidableEq

/-- Observable pipeline steps of one `logYouTubeWatch` run, in the order
the code performs them. -/
inductive Ev
  | configRead
  | dedupCheck
  | suppressed
  | fetchPrimary
  | fetchFailed
  | enrichCategory
  | enrichChannel
  | assembleEntry
  | appendLog
  | markLog
  | notify
deriving DecidableEq

/-- One intake's inputs: the event, the config read from sync storage, the
clock, the persistent/in-memory state, and the network oracles. -/
structure OrchInput where
  videoId : String
  url : String
  apiKey : String
  profile : String
  now : Int
  lastLogged : String → Option Int
  watchLog : List Entry
  catCache : String → Option (Option String)
  primary : Nat → Except String Meta
  catResponse : CatResponse
  channelResponse : Option ChannelExtra

/-- One intake's outcome: the state after the run, whether the
`YTL_LOGGED` notification was sent, and the step trace. -/
structure OrchOutput where
  watchLog : List Entry
  lastLogged : String → Option Int
  catCache : String → Option (Option String)
  notified : Bool
  trace : List Ev

/-- The null-filled fallback metadata built inline at background.js 172-192
when no API key is configured. -/
def fallbackMeta (videoId : String) : Meta :=
  { videoId, title := none, description := none, channelId := none,
    channelTitle := none, categoryId := none, durationSeconds := none }

/-- Entry assembly (background.js 197-244). -/
def mkEntry (inp : OrchInput) (meta : Meta) (categoryName : Option String)
    (channelExtra : Option ChannelExtra) : Entry :=
  { videoId := inp.videoId, url := inp.url, profile := inp.profile,
    title := meta.title, description := meta.description,
    channelId := meta.channelId, channelTitle := meta.channelTitle,
    durationSeconds := meta.durationSeconds,
    isShorts := inferIsShorts inp.url meta.durationSeconds,
    categoryId := meta.categoryId, categoryName := categoryName,
    watchedAt := inp.now, channelExtra := channelExtra }

/-- `logYouTubeWatch` (background.js 163-253): read config, check the dedup
guard (TTL 120 min), then either stop suppressed; build the fallback entry
when no API key is set (no enrichment calls); or run the retrying primary
fetch — on failure the error is caught at the orchestrator boundary with
nothing written, on success the entry is enriched (category via the cache,
channel only when `meta.channelId` is truthy), assembled, appended,
marked, and notified. -/
def logYouTubeWatch (inp : OrchInput) : OrchOutput :=
  if recentlyLogged inp.lastLogged inp.profile inp.videoId 120 inp.now then
    { watchLog := inp.watchLog, lastLogged := inp.lastLogged,
      catCache := inp.catCache, notified := false,
      trace := [.configRead, .dedupCheck, .suppressed] }
  else if inp.apiKey = "" then
    { watchLog := setLogEntry inp.watchLog
        (mkEntry inp (fallbackMeta inp.videoId) none none) 5000,
      lastLogged := markLogged inp.lastLogged inp.profile inp.videoId inp.now,
      catCache := inp.catCache, notified := true,
      trace := [.configRead, .dedupCheck, .assembleEntry, .appendLog,
                .markLog, .notify] }
  else
    match (fetchVideoMetadataRich inp.primary 3).result with
    | .error _ =>
      { watchLog := inp.watchLog, lastLogged := inp.lastLogged,
        catCache := inp.catCache, notified := false,
        trace := [.configRead, .dedupCheck, .fetchPrimary, .fetchFailed] }
    | .ok meta =>
      let cat := getCategoryName inp.catCache meta.categoryId "US" inp.catResponse
      let channelExtra :=
        if truthyS meta.channelId then inp.channelResponse else none
      { watchLog := setLogEntry inp.watchLog
          (mkEntry inp meta cat.name channelExtra) 5000,
        lastLogged := markLogged inp.lastLogged inp.profile inp.videoId inp.now,
        catCache := cat.cache, notified := true,
        trace := [.configRead, .dedupCheck, .fetchPrimary, .enrichCategory] ++
          (if truthyS meta.channelId then [Ev.enrichChannel] else []) ++
          [.assembleEntry, .appendLog, .markLog, .notify] }

/-! ## Popup-side persistent state (`popup.js`) -/

/-- A generated cross-link remembered by `rememberPlaylistLink`
(popup.js 127-133). -/
structure PlaylistLink where
  url : String
  count : Nat
  createdAt : Int
deriving DecidableEq

/-- The log-related keys of `chrome.storage.local` that the popup touches:
the primary log and the log-derived playlist-link history. -/
structure LocalStore where
  watchLog : List Entry
  playlistLinks : List PlaylistLink

/-- The clear-button handler (popup.js 194-197): after confirmation it sets
`{ watchLog: [], playlistLinks: [] }` in one write. -/
def clearLogs (s : LocalStore) : LocalStore :=
  { s with watchLog := [], playlistLinks := [] }

/-! ## Concrete inputs used to instantiate the theorems -/

/-- A baseline intake: API key configured, empty dedup table, empty log,
empty category cache, every primary attempt failing. -/
def wBase : OrchInput :=
  { videoId := "v1", url := "https://www.youtube.com/watch?v=v1",
    apiKey := "k", profile := "Child", now := 0,
    lastLogged := fun _ => none, watchLog := [],
    catCache := fun _ => none,
    primary := fun _ => Except.error "network down",
    catResponse := CatResponse.notOk, channelResponse := none }

/-- A concrete metadata record as returned by a successful primary fetch. -/
def wMeta : Meta :=
  { videoId := "v1", title := some "T", description := some "D",
    channelId := some "c1", channelTitle := some "CT",
    categoryId := some "10", durationSeconds := some 45 }

/-- The baseline intake with a dedup record fresh at the current time. -/
def wSuppInput : OrchInput := { wBase with lastLogged := fun _ => some 0 }

/-- The baseline intake with no API key configured. -/
def wFallInput : OrchInput := { wBase with apiKey := "" }

/-- The baseline intake with every primary attempt succeeding. -/
def wOkInput : OrchInput := { wBase with primary := fun _ => Except.ok wMeta }

/-! ## Helper lemmas about the retry loop -/

/-- The loop makes at least one attempt past the starting index. -/
theorem fetchRichAux_attempts_lb (p : Nat → Except String Meta) (r : Nat) :
    ∀ a, a < (fetchRichAux p a r).attempts := by
  induction r with
  | zero => intro a; cases hp : p a <;> simp [fetchRichAux, hp]
  | succ r ih =>
    intro a
    cases hp : p a with
    | ok m => simp [fetchRichAux, hp]
    | error e =>
      have h := ih (a + 1)
      simp only [fetchRichAux, hp]
      omega

/-- The loop makes at most `r + 1` attempts past the starting index. -/
theorem fetchRichAux_attempts_ub (p : Nat → Except String Meta) (r : Nat) :
    ∀ a, (fetchRichAux p a r).attempts ≤ a + r + 1 := by
  induction r with
  | zero => intro a; cases hp : p a <;> simp [fetchRichAux, hp]
  | succ r ih =>
    intro a
    cases hp : p a with
    | ok m => simp [fetchRichAux, hp]
    | error e =>
      have h := ih (a + 1)
      simp only [fetchRichAux, hp]
      omega

/-- The loop's result is the outcome of its last attempt. -/
theorem fetchRichAux_result (p : Nat → Except String Meta) (r : Nat) :
    ∀ a, (fetchRichAux p a r).result = p ((fetchRichAux p a r).attempts - 1) := by
  induction r with
  | zero =>
    intro a
    cases hp : p a <;> simp [fetchRichAux, hp]
  | succ r ih =>
    intro a
    cases hp : p a with
    | ok m => simp [fetchRichAux, hp]
    | error e =>
      have h := ih (a + 1)
      simp only [fetchRichAux, hp]
      exact h

/-- Every attempt strictly before the last one failed. -/
theorem fetchRichAux_failures (p : Nat → Except String Meta) (r : Nat) :
    ∀ a j, a ≤ j → j < (fetchRichAux p a r).attempts - 1 →
      ∃ e, p j = Except.error e := by
  induction r with
  | zero =>
    intro a j haj hj
    cases hp : p a <;> simp [fetchRichAux, hp] at hj <;> omega
  | succ r ih =>
    intro a j haj hj
    cases hp : p a with
    | ok m => simp [fetchRichAux, hp] at hj; omega
    | error e =>
      simp only [fetchRichAux, hp] at hj
      rcases Nat.eq_or_lt_of_le haj with h | h
      · exact ⟨e, h ▸ hp⟩
      · exact ih (a + 1) j h hj

/-- The loop stops either on a successful last attempt or because the
retry budget is exhausted. -/
theorem fetchRichAux_term (p : Nat → Except String Meta) (r : Nat) :
    ∀ a, (∃ m, p ((fetchRichAux p a r).attempts - 1) = Except.ok m) ∨
      (fetchRichAux p a r).attempts = a + r + 1 := by
  induction r with
  | zero =>
    intro a
    cases hp : p a with
    | ok m => left; exact ⟨m, by simp [fetchRichAux, hp]⟩
    | error e => right; simp [fetchRichAux, hp]
  | succ r ih =>
    intro a
    cases hp : p a with
    | ok m => left; exact ⟨m, by simp [fetchRichAux, hp]⟩
    | error e =>
      rcases ih (a + 1) with h | h
      · left; simpa [fetchRichAux, hp] using h
      · right; simp only [fetchRichAux, hp]; omega

/-- The delays slept between consecutive attempts are
`300·1, 300·2, …` starting from the first failed attempt index. -/
theorem fetchRichAux_sleeps (p : Nat → Except String Meta) (r : Nat) :
    ∀ a, (fetchRichAux p a r).sleeps =
      (List.range ((fetchRichAux p a r).attempts - 1 - a)).map
        (fun n => 300 * (a + n + 1)) := by
  induction r with
  | zero =>
    intro a
    cases hp : p a <;>
      · simp only [fetchRichAux, hp]
        have h : a + 1 - 1 - a = 0 := by omega
        simp [h]
  | succ r ih =>
    intro a
    cases hp : p a with
    | ok m =>
      simp only [fetchRichAux, hp]
      have h : a + 1 - 1 - a = 0 := by omega
      simp [h]
    | error e =>
      have hlb := fetchRichAux_attempts_lb p r (a + 1)
      simp only [fetchRichAux, hp]
      rw [ih (a + 1)]
      have hk : (fetchRichAux p (a + 1) r).attempts - 1 - a
          = ((fetchRichAux p (a + 1) r).attempts - 1 - (a + 1)) + 1 := by omega
      rw [hk, List.range_succ_eq_map, List.map_cons, List.map_map]
      have hfun : ((fun n => 300 * (a + n + 1)) ∘ Nat.succ)
          = (fun n => 300 * (a + 1 + n + 1)) := by
        funext n
        simp only [Function.comp]
        omega
      rw [hfun]

/-- The duration regex fails exactly when the input has no `PT` substring. -/
theorem afterPT_none_iff (cs : List Char) :
    afterPT cs = none ↔ hasSubstr ['P', 'T'] cs = false := by
  induction cs with
  | nil => simp [afterPT, hasSubstr]
  | cons c rest ih =>
    cases hp : ['P', 'T'].isPrefixOf (c :: rest) with
    | true =>
      rw [show afterPT (c :: rest) = some rest.tail from by simp [afterPT, hp]]
      rw [show hasSubstr ['P', 'T'] (c :: rest) = true from by simp [hasSubstr, hp]]
      simp
    | false =>
      rw [show afterPT (c :: rest) = afterPT rest from by simp [afterPT, hp]]
      rw [show hasSubstr ['P', 'T'] (c :: rest) = hasSubstr ['P', 'T'] rest from by
        simp [hasSubstr, hp]]
      exact ih

/-- Claim C2: every `setLogEntry` append with capacity 5000 leaves the log
with at most 5000 entries; the removed entries are exactly the oldest
surplus prefix, so the surviving entries keep their relative order (the
result is the suffix that remains after dropping that prefix). -/
theorem C2_log_capacity {α : Type} (log : List α) (e : α) :
    (setLogEntry log e 5000).length ≤ 5000 ∧
    log ++ [e] = List.take ((log ++ [e]).length - 5000) (log ++ [e])
      ++ setLogEntry log e 5000 := by
  unfold setLogEntry
  by_cases h : (log ++ [e]).length > 5000
  · rw [if_pos h]
    constructor
    · rw [List.length_drop]
      omega
    · exact (List.take_append_drop _ _).symm
  · rw [if_neg h]
    constructor
    · omega
    · have h0 : (log ++ [e]).length - 5000 = 0 := by omega
      rw [h0, List.take_zero, List.nil_append]

/-- Claim C4 (counterexample): on input `"PT"` — where no duration field
matches — and on the non-matching input `"XPTX"`, the parser returns 0
seconds rather than null, because the regex's three groups are all
optional and it scans unanchored for the literal `PT`. -/
theorem C4_duration_counterexample :
    parseISODurationToSeconds "PT" = some 0 ∧
    parseISODurationToSeconds "XPTX" = some 0 := by
  constructor <;> decide

/-- Claim C4 (amended): the compact components parse to
`h*3600 + m*60 + s` as claimed, but null is returned exactly when the
input contains no `PT` substring; an input containing `PT` always yields
a number (0 when no duration field matches). -/
theorem C4_duration_amended :
    parseISODurationToSeconds "PT1H2M3S" = some 3723 ∧
    parseISODurationToSeconds "PT5M" = some 300 ∧
    parseISODurationToSeconds "PT45S" = some 45 ∧
    parseISODurationToSeconds "" = none ∧
    (∀ s : String, hasSubstr ['P', 'T'] s.data = false →
      parseISODurationToSeconds s = none) ∧
    (∀ s : String, hasSubstr ['P', 'T'] s.data = true →
      (parseISODurationToSeconds s).isSome = true) := by
  refine ⟨by decide, by decide, by decide, by decide, ?_, ?_⟩
  · intro s hs
    have h := (afterPT_none_iff s.data).mpr hs
    simp [parseISODurationToSeconds, h]
  · intro s hs
    cases h : afterPT s.data with
    | none =>
      rw [(afterPT_none_iff s.data).mp h] at hs
      cases hs
    | some t => simp [parseISODurationToSeconds, h]

/-- Witness for the amended C4 at concrete inputs. -/
theorem C4_duration_amended_witness :
    parseISODurationToSeconds "xyz" = none ∧
    (parseISODurationToSeconds "aPTb").isSome = true :=
  ⟨C4_duration_amended.2.2.2.2.1 "xyz" (by decide),
   C4_duration_amended.2.2.2.2.2 "aPTb" (by decide)⟩

/-- Claim C6: `recentlyLogged` is true iff a record exists under the dedup
key whose age is strictly less than the TTL; after `markLogged` at time T
a check at `T + ttl - ε` is suppressed and a check at `T + ttl + ε` is
not, for every ε > 0 (ttl = 120 minutes in milliseconds); with no record
the check is false. -/
theorem C6_dedup_ttl :
    (∀ (table : String → Option Int) (p x : String) (ttl now : Int),
      recentlyLogged table p x ttl now = true ↔
        ∃ t, table (dedupKey p x) = some t ∧ now - t < ttl * 60000) ∧
    (∀ (table : String → Option Int) (p x : String) (T ε : Int), 0 < ε →
      recentlyLogged (markLogged table p x T) p x 120
        (T + 120 * 60000 - ε) = true) ∧
    (∀ (table : String → Option Int) (p x : String) (T ε : Int), 0 < ε →
      recentlyLogged (markLogged table p x T) p x 120
        (T + 120 * 60000 + ε) = false) ∧
    (∀ (table : String → Option Int) (p x : String) (ttl now : Int),
      table (dedupKey p x) = none → recentlyLogged table p x ttl now = false) := by
  refine ⟨?_, ?_, ?_, ?_⟩
  · intro table p x ttl now
    unfold recentlyLogged
    cases h : table (dedupKey p x) with
    | none => simp [h]
    | some t => simp [h]
  · intro table p x T ε hε
    unfold recentlyLogged markLogged
    simp [decide_eq_true_eq]
    omega
  · intro table p x T ε hε
    unfold recentlyLogged markLogged
    simp [decide_eq_false_iff_not]
    omega
  · intro table p x ttl now h
    unfold recentlyLogged
    simp [h]

/-- Witness for C6 at concrete times around the TTL boundary. -/
theorem C6_dedup_ttl_witness :
    recentlyLogged (markLogged (fun _ => none) "Child" "v1" 0) "Child" "v1" 120
      (0 + 120 * 60000 - 1) = true ∧
    recentlyLogged (markLogged (fun _ => none) "Child" "v1" 0) "Child" "v1" 120
      (0 + 120 * 60000 + 1) = false ∧
    recentlyLogged (fun _ => none) "Child" "v1" 120 999 = false :=
  ⟨C6_dedup_ttl.2.1 (fun _ => none) "Child" "v1" 0 1 (by decide),
   C6_dedup_ttl.2.2.1 (fun _ => none) "Child" "v1" 0 1 (by decide),
   C6_dedup_ttl.2.2.2 (fun _ => none) "Child" "v1" 120 999 rfl⟩

/-- Claim C7: a URL containing `/shorts/` forces `isShorts` regardless of
the duration; otherwise a numeric duration decides it by `≤ 60`; a null
duration with a non-shorts URL yields false. -/
theorem C7_isShorts :
    (∀ (url : String) (d : Option Nat),
      hasSubstr "/shorts/".data url.data = true → inferIsShorts url d = true) ∧
    (∀ (url : String) (d : Nat), hasSubstr "/shorts/".data url.data = false →
      d ≤ 60 → inferIsShorts url (some d) = true) ∧
    (∀ (url : String) (d : Nat), hasSubstr "/shorts/".data url.data = false →
      60 < d → inferIsShorts url (some d) = false) ∧
    (∀ url : String, hasSubstr "/shorts/".data url.data = false →
      inferIsShorts url none = false) := by
  refine ⟨?_, ?_, ?_, ?_⟩
  · intro url d h
    simp [inferIsShorts, h]
  · intro url d h hd
    simp [inferIsShorts, h, hd]
  · intro url d h hd
    simp [inferIsShorts, h]
    omega
  · intro url h
    simp [inferIsShorts, h]

/-- Witness for C7 at concrete URLs and durations. -/
theorem C7_isShorts_witness :
    inferIsShorts "https://www.youtube.com/shorts/abc" (some 90) = true ∧
    inferIsShorts "https://www.youtube.com/watch?v=a" (some 60) = true ∧
    inferIsShorts "https://www.youtube.com/watch?v=a" (some 90) = false ∧
    inferIsShorts "https://www.youtube.com/watch?v=a" none = false :=
  ⟨C7_isShorts.1 "https://www.youtube.com/shorts/abc" (some 90) (by decide),
   C7_isShorts.2.1 "https://www.youtube.com/watch?v=a" 60 (by decide) (by decide),
   C7_isShorts.2.2.1 "https://www.youtube.com/watch?v=a" 90 (by decide) (by decide),
   C7_isShorts.2.2.2 "https://www.youtube.com/watch?v=a" (by decide)⟩

/-- Claim C9: after the clear handler runs, both the watch log and the
log-derived playlist-link history are empty. -/
theorem C9_clear (s : LocalStore) :
    (clearLogs s).watchLog = [] ∧ (clearLogs s).playlistLinks = [] := by
  simp [clearLogs]

/-- Claim C10: `markLogged` sets the record under `profile:videoId` to the
current time and leaves the record under every other key unchanged. -/
theorem C10_markLogged_frame (table : String → Option Int) (p x : String)
    (now : Int) :
    markLogged table p x now (dedupKey p x) = some now ∧
    ∀ k, k ≠ dedupKey p x → markLogged table p x now k = table k := by
  constructor
  · simp [markLogged]
  · intro k hk
    simp [markLogged, hk]

/-- Witness for C10 at a concrete table, key and unrelated key. -/
theorem C10_markLogged_frame_witness :
    markLogged (fun _ => none) "Child" "v1" 5 (dedupKey "Child" "v1") = some 5 ∧
    markLogged (fun _ => none) "Child" "v1" 5 "Other:v2" = none :=
  ⟨(C10_markLogged_frame (fun _ => none) "Child" "v1" 5).1,
   (C10_markLogged_frame (fun _ => none) "Child" "v1" 5).2 "Other:v2" (by decide)⟩

/-- Claim C3 (counterexample): starting from an empty cache, when the first
lookup's outcome is a non-ok HTTP response, nothing is cached
(`if (!res.ok) return null` precedes the cache write), so a second lookup
for the same `(region, categoryId)` pair issues a second network call —
two lookups make two calls, not one. -/
theorem C3_cache_counterexample :
    (getCategoryName (fun _ => none) (some "10") "US" CatResponse.notOk).calls
      = 1 ∧
    (getCategoryName
      (getCategoryName (fun _ => none) (some "10") "US" CatResponse.notOk).cache
      (some "10") "US" CatResponse.notOk).calls = 1 := by
  constructor <;> rfl

/-- Claim C3 (amended): for an uncached `(region, categoryId)` pair, if the
first lookup's response is ok — including a not-found outcome, cached as a
null name — the outcome is cached permanently, so a second lookup issues
no network call and returns the cached result; but a non-ok HTTP response
is not cached (the first lookup returns null and a repeat lookup calls the
network again). -/
theorem C3_cache_amended (cache : String → Option (Option String))
    (cid region : String) (r2 : CatResponse) (name : Option String)
    (hcid : cid ≠ "")
    (hmiss : cache (region ++ ":" ++ cid) = none) :
    (getCategoryName cache (some cid) region (CatResponse.ok name)).calls = 1 ∧
    (getCategoryName
      (getCategoryName cache (some cid) region (CatResponse.ok name)).cache
      (some cid) region r2).calls = 0 ∧
    (getCategoryName
      (getCategoryName cache (some cid) region (CatResponse.ok name)).cache
      (some cid) region r2).name = name ∧
    (getCategoryName cache (some cid) region CatResponse.notOk).calls = 1 ∧
    (getCategoryName cache (some cid) region CatResponse.notOk).cache = cache := by
  have htr : truthyS (some cid) = true := by simp [truthyS, hcid]
  have h1 : getCategoryName cache (some cid) region (CatResponse.ok name)
      = ⟨name, fun k => if k = region ++ ":" ++ cid then some name else cache k, 1⟩ := by
    unfold getCategoryName
    simp [htr, hmiss]
  have h2 : getCategoryName
      (fun k => if k = region ++ ":" ++ cid then some name else cache k)
      (some cid) region r2 = ⟨name, fun k => if k = region ++ ":" ++ cid then some name else cache k, 0⟩ := by
    unfold getCategoryName
    simp [htr]
  have h3 : getCategoryName cache (some cid) region CatResponse.notOk
      = ⟨none, cache, 1⟩ := by
    unfold getCategoryName
    simp [htr, hmiss]
  refine ⟨by rw [h1], ?_, ?_, by rw [h3], by rw [h3]⟩
  · rw [h1]
    rw [h2]
  · rw [h1]
    rw [h2]

/-- Witness for the amended C3 at a concrete cache, key and response. -/
theorem C3_cache_amended_witness :
    (getCategoryName (fun _ => none) (some "10") "US"
      (CatResponse.ok (some "Music"))).calls = 1 ∧
    (getCategoryName
      (getCategoryName (fun _ => none) (some "10") "US"
        (CatResponse.ok (some "Music"))).cache
      (some "10") "US" CatResponse.notOk).calls = 0 ∧
    (getCategoryName
      (getCategoryName (fun _ => none) (some "10") "US"
        (CatResponse.ok (some "Music"))).cache
      (some "10") "US" CatResponse.notOk).name = some "Music" :=
  ⟨(C3_cache_amended (fun _ => none) "10" "US" CatResponse.notOk (some "Music")
      (by decide) rfl).1,
   (C3_cache_amended (fun _ => none) "10" "US" CatResponse.notOk (some "Music")
      (by decide) rfl).2.1,
   (C3_cache_amended (fun _ => none) "10" "US" CatResponse.notOk (some "Music")
      (by decide) rfl).2.2.1⟩

/-- Claim C5 (counterexample): on a suppressed intake the pipeline's trace
is `configRead, dedupCheck, suppressed` — the config read comes first (its
`profile` is needed to form the dedup key), so there are no positions
placing the dedup check strictly before the config read. -/
theorem C5_order_counterexample :
    (logYouTubeWatch wSuppInput).trace
      = [Ev.configRead, Ev.dedupCheck, Ev.suppressed] ∧
    ¬ ∃ i j : Nat, i < j ∧
      (logYouTubeWatch wSuppInput).trace[i]? = some Ev.dedupCheck ∧
      (logYouTubeWatch wSuppInput).trace[j]? = some Ev.configRead := by
  have h : (logYouTubeWatch wSuppInput).trace
      = [Ev.configRead, Ev.dedupCheck, Ev.suppressed] := by decide
  refine ⟨h, ?_⟩
  rw [h]
  rintro ⟨i, j, hij, hi, hj⟩
  have hj0 : j = 0 := by
    rcases j with _ | _ | _ | j
    · rfl
    · exact absurd hj (by decide)
    · exact absurd hj (by decide)
    · exact absurd hj (by simp)
  omega

/-- Claim C5 (amended): every intake reads config strictly before the
dedup check (the profile from config forms the dedup key); a suppressed
intake terminates at SUPPRESSED right after the dedup check — after the
config read, but without fetching, appending, marking, or notifying. -/
theorem C5_order_amended (inp : OrchInput) :
    (∃ rest, (logYouTubeWatch inp).trace
      = Ev.configRead :: Ev.dedupCheck :: rest) ∧
    (recentlyLogged inp.lastLogged inp.profile inp.videoId 120 inp.now = true →
      (logYouTubeWatch inp).trace
        = [Ev.configRead, Ev.dedupCheck, Ev.suppressed] ∧
      (logYouTubeWatch inp).watchLog = inp.watchLog ∧
      (logYouTubeWatch inp).lastLogged = inp.lastLogged ∧
      (logYouTubeWatch inp).catCache = inp.catCache ∧
      (logYouTubeWatch inp).notified = false) := by
  constructor
  · unfold logYouTubeWatch
    cases h1 : recentlyLogged inp.lastLogged inp.profile inp.videoId 120 inp.now with
    | true => exact ⟨[Ev.suppressed], by simp⟩
    | false =>
      by_cases h2 : inp.apiKey = ""
      · exact ⟨[Ev.assembleEntry, Ev.appendLog, Ev.markLog, Ev.notify],
          by simp [h2]⟩
      · cases hr : (fetchVideoMetadataRich inp.primary 3).result with
        | error e =>
          refine ⟨[Ev.fetchPrimary, Ev.fetchFailed], ?_⟩
          simp only [Bool.false_eq_true, if_false, if_neg h2, hr]
        | ok meta =>
          refine ⟨[Ev.fetchPrimary, Ev.enrichCategory] ++
            (if truthyS meta.channelId then [Ev.enrichChannel] else []) ++
            [Ev.assembleEntry, Ev.appendLog, Ev.markLog, Ev.notify], ?_⟩
          simp only [Bool.false_eq_true, if_false, if_neg h2, hr]
          simp
  · intro h
    simp [logYouTubeWatch, h]

/-- Witness for the amended C5 at a concrete suppressed intake. -/
theorem C5_order_amended_witness :
    (∃ rest, (logYouTubeWatch wSuppInput).trace
      = Ev.configRead :: Ev.dedupCheck :: rest) ∧
    (logYouTubeWatch wSuppInput).notified = false :=
  ⟨(C5_order_amended wSuppInput).1,
   ((C5_order_amended wSuppInput).2 (by decide)).2.2.2.2⟩

/-- Claim C8: with no API key configured and the intake not suppressed,
the pipeline appends the fallback entry — null title, description and
duration, `isShorts` decided by the URL signal alone — without any
category or channel enrichment call (the trace has no enrichment step and
the category cache is untouched), then marks the dedup key and notifies. -/
theorem C8_fallback (inp : OrchInput)
    (hkey : inp.apiKey = "")
    (hded : recentlyLogged inp.lastLogged inp.profile inp.videoId 120 inp.now
      = false) :
    (logYouTubeWatch inp).watchLog
      = setLogEntry inp.watchLog
          (mkEntry inp (fallbackMeta inp.videoId) none none) 5000 ∧
    (mkEntry inp (fallbackMeta inp.videoId) none none).title = none ∧
    (mkEntry inp (fallbackMeta inp.videoId) none none).description = none ∧
    (mkEntry inp (fallbackMeta inp.videoId) none none).durationSeconds = none ∧
    (mkEntry inp (fallbackMeta inp.videoId) none none).channelExtra = none ∧
    (mkEntry inp (fallbackMeta inp.videoId) none none).categoryName = none ∧
    (mkEntry inp (fallbackMeta inp.videoId) none none).isShorts
      = hasSubstr "/shorts/".data inp.url.data ∧
    (logYouTubeWatch inp).trace
      = [Ev.configRead, Ev.dedupCheck, Ev.assembleEntry, Ev.appendLog,
         Ev.markLog, Ev.notify] ∧
    (logYouTubeWatch inp).lastLogged
      = markLogged inp.lastLogged inp.profile inp.videoId inp.now ∧
    (logYouTubeWatch inp).catCache = inp.catCache ∧
    (logYouTubeWatch inp).notified = true := by
  have hshorts : (mkEntry inp (fallbackMeta inp.videoId) none none).isShorts
      = hasSubstr "/shorts/".data inp.url.data := by
    cases h : hasSubstr "/shorts/".data inp.url.data <;>
      simp [mkEntry, fallbackMeta, inferIsShorts, h]
  refine ⟨?_, rfl, rfl, rfl, rfl, rfl, hshorts, ?_, ?_, ?_, ?_⟩ <;>
    simp [logYouTubeWatch, hded, hkey]

/-- Witness for C8 at a concrete intake with no API key. -/
theorem C8_fallback_witness :
    (logYouTubeWatch wFallInput).notified = true ∧
    (logYouTubeWatch wFallInput).trace
      = [Ev.configRead, Ev.dedupCheck, Ev.assembleEntry, Ev.appendLog,
         Ev.markLog, Ev.notify] ∧
    (logYouTubeWatch wFallInput).watchLog
      = setLogEntry wFallInput.watchLog
          (mkEntry wFallInput (fallbackMeta wFallInput.videoId) none none) 5000 :=
  ⟨(C8_fallback wFallInput rfl rfl).2.2.2.2.2.2.2.2.2.2,
   (C8_fallback wFallInput rfl rfl).2.2.2.2.2.2.2.1,
   (C8_fallback wFallInput rfl rfl).1⟩

/-- Claim C1: with an API key configured and the intake not suppressed, the
primary fetch with `maxRetries = 3` makes at most 4 attempts, sleeping
`300ms × attemptNumber` between consecutive attempts; if the result is a
success the intake appends an entry, marks the key and notifies; if all 4
attempts fail, the loop's result is the last attempt's error, nothing is
appended or marked and no notification is sent; and if attempt `i`
succeeds after failures, the loop returns that success. -/
theorem C1_retry (inp : OrchInput)
    (hkey : inp.apiKey ≠ "")
    (hded : recentlyLogged inp.lastLogged inp.profile inp.videoId 120 inp.now
      = false) :
    (fetchVideoMetadataRich inp.primary 3).attempts ≤ 4 ∧
    (fetchVideoMetadataRich inp.primary 3).sleeps
      = (List.range ((fetchVideoMetadataRich inp.primary 3).attempts - 1)).map
          (fun n => 300 * (n + 1)) ∧
    (∀ m, (fetchVideoMetadataRich inp.primary 3).result = Except.ok m →
      (logYouTubeWatch inp).notified = true ∧
      (∃ e, (logYouTubeWatch inp).watchLog = setLogEntry inp.watchLog e 5000) ∧
      (logYouTubeWatch inp).lastLogged
        = markLogged inp.lastLogged inp.profile inp.videoId inp.now) ∧
    ((∀ i, i < 4 → ∃ e, inp.primary i = Except.error e) →
      (fetchVideoMetadataRich inp.primary 3).attempts = 4 ∧
      (fetchVideoMetadataRich inp.primary 3).result = inp.primary 3 ∧
      (logYouTubeWatch inp).watchLog = inp.watchLog ∧
      (logYouTubeWatch inp).lastLogged = inp.lastLogged ∧
      (logYouTubeWatch inp).notified = false) ∧
    (∀ i m, i < 4 → inp.primary i = Except.ok m →
      (∀ j, j < i → ∃ e, inp.primary j = Except.error e) →
      (fetchVideoMetadataRich inp.primary 3).result = Except.ok m) := by
  have hub : (fetchVideoMetadataRich inp.primary 3).attempts ≤ 4 := by
    simpa [fetchVideoMetadataRich] using fetchRichAux_attempts_ub inp.primary 3 0
  have hlb : 0 < (fetchVideoMetadataRich inp.primary 3).attempts := by
    simpa [fetchVideoMetadataRich] using fetchRichAux_attempts_lb inp.primary 3 0
  have hres : (fetchVideoMetadataRich inp.primary 3).result
      = inp.primary ((fetchVideoMetadataRich inp.primary 3).attempts - 1) := by
    simpa [fetchVideoMetadataRich] using fetchRichAux_result inp.primary 3 0
  have hfail : ∀ j, j < (fetchVideoMetadataRich inp.primary 3).attempts - 1 →
      ∃ e, inp.primary j = Except.error e := by
    intro j hj
    exact fetchRichAux_failures inp.primary 3 0 j (Nat.zero_le j) hj
  have hterm : (∃ m, inp.primary
        ((fetchVideoMetadataRich inp.primary 3).attempts - 1) = Except.ok m) ∨
      (fetchVideoMetadataRich inp.primary 3).attempts = 4 := by
    simpa [fetchVideoMetadataRich] using fetchRichAux_term inp.primary 3 0
  have hsl : (fetchVideoMetadataRich inp.primary 3).sleeps
      = (List.range ((fetchVideoMetadataRich inp.primary 3).attempts - 1)).map
          (fun n => 300 * (n + 1)) := by
    simpa [fetchVideoMetadataRich] using fetchRichAux_sleeps inp.primary 3 0
  refine ⟨hub, hsl, ?_, ?_, ?_⟩
  · intro m hm
    refine ⟨?_, ⟨mkEntry inp m (getCategoryName inp.catCache m.categoryId "US"
        inp.catResponse).name
        (if truthyS m.channelId then inp.channelResponse else none), ?_⟩, ?_⟩ <;>
      simp [logYouTubeWatch, hded, hkey, hm]
  · intro hall
    have h4 : (fetchVideoMetadataRich inp.primary 3).attempts = 4 := by
      rcases hterm with ⟨m, hm⟩ | h4
      · obtain ⟨e, he⟩ :=
          hall ((fetchVideoMetadataRich inp.primary 3).attempts - 1) (by omega)
        rw [he] at hm
        simp at hm
      · exact h4
    obtain ⟨e, he⟩ := hall 3 (by omega)
    have hre : (fetchVideoMetadataRich inp.primary 3).result = Except.error e := by
      rw [hres, h4]
      exact he
    refine ⟨h4, by rw [hres, h4], ?_, ?_, ?_⟩ <;>
      simp [logYouTubeWatch, hded, hkey, hre]
  · intro i m hi hm hprev
    rcases Nat.lt_trichotomy i ((fetchVideoMetadataRich inp.primary 3).attempts - 1)
      with hlt | heq | hgt
    · obtain ⟨e, he⟩ := hfail i hlt
      rw [hm] at he
      simp at he
    · rw [hres, ← heq]
      exact hm
    · exfalso
      rcases hterm with ⟨m', hm'⟩ | h4
      · obtain ⟨e, he⟩ :=
          hprev ((fetchVideoMetadataRich inp.primary 3).attempts - 1) hgt
        rw [he] at hm'
        simp at hm'
      · omega

/-- Witness for C1: a concrete intake whose primary fetch always fails
aborts with nothing written, and one whose first attempt succeeds is
logged and notified. -/
theorem C1_retry_witness :
    ((fetchVideoMetadataRich wBase.primary 3).attempts = 4 ∧
     (fetchVideoMetadataRich wBase.primary 3).result = wBase.primary 3 ∧
     (logYouTubeWatch wBase).watchLog = wBase.watchLog ∧
     (logYouTubeWatch wBase).lastLogged = wBase.lastLogged ∧
     (logYouTubeWatch wBase).notified = false) ∧
    (logYouTubeWatch wOkInput).notified = true :=
  ⟨(C1_retry wBase (by decide) rfl).2.2.2.1
    (fun i _ => ⟨"network down", rfl⟩),
   ((C1_retry wOkInput (by decide) rfl).2.2.1 wMeta rfl).1⟩
